import Mathlib

/-!
Shallow embedding of the pylaser2d repository (a 2D laser-scanner simulator)
and proofs about it.

Numbers are modelled by the rationals: the Python code computes with IEEE
doubles, and every claim here concerns the exact arithmetic structure of the
algorithms, not rounding.  The shapely geometric primitives used by
LaserScanner.scan (point-in-polygon containment, beam-geometry intersection
distance) and the trigonometric functions are third-party library calls; they
are abstracted as an explicit oracle structure ShapelyModel, so every theorem
about scan is parametric in a faithful model of that library.
-/

namespace Pylaser

/-- A 2D point, as used by the scanner (laser_scanner.py PathNode). -/
abbrev PathNode : Type := ℚ × ℚ

/-- Exact model of numpy.arange(start, stop, step) for the positive-step case:
the half-open range [start, stop) sampled every step; the element count is
ceil((stop - start) / step), the stop value itself always excluded. -/
def arange (start stop step : ℚ) : List ℚ :=
  (List.range (Rat.ceil ((stop - start) / step)).toNat).map
    (fun (k : ℕ) => start + (k : ℚ) * step)

/-- laser_output.LaserScanConfig: the sensor configuration record. -/
structure LaserScanConfig where
  angle_min : ℚ
  angle_max : ℚ
  angle_increment : ℚ
  range_min : ℚ
  range_max : ℚ
  frame_id : String
deriving DecidableEq

/-- laser_output.LaserScanOutput: the scan-state dataclass.  The private
fields _state, _angles, _ranges, _beam_end_points are stored directly. -/
structure LaserScanOutput where
  timestamp : ℚ := 0
  frame_id : String := ""
  state : List ℚ := []
  angle_min : ℚ := -1
  angle_max : ℚ := 1
  angle_increment : ℚ := 1
  angles : List ℚ := []
  range_min : ℚ := 0
  range_max : ℚ := 10
  ranges : List ℚ := []
  beam_end_points : List PathNode := []
deriving DecidableEq

/-- laser_output.LaserScanOutput.__post_init__ run on a configuration record
(the path taken by LaserScanOutput.from_config): validates the angular
configuration and derives the angle sequence via
np.arange(angle_min, angle_max + angle_increment/2, angle_increment). -/
def mkLaserScanOutput (cfg : LaserScanConfig) : Except String LaserScanOutput :=
  if cfg.angle_min > cfg.angle_max then
    .error "angle_min should be less than angle_max."
  else if cfg.angle_increment ≤ 0 ∨ cfg.angle_increment > cfg.angle_max - cfg.angle_min then
    .error "angle_increment should be positive and less than angle_max - angle_min."
  else
    .ok { timestamp := 0
          frame_id := cfg.frame_id
          state := []
          angle_min := cfg.angle_min
          angle_max := cfg.angle_max
          angle_increment := cfg.angle_increment
          angles := arange cfg.angle_min (cfg.angle_max + cfg.angle_increment / 2)
                      cfg.angle_increment
          range_min := cfg.range_min
          range_max := cfg.range_max
          ranges := []
          beam_end_points := [] }

/-- laser_output.LaserScanOutput.init_beams: reset every range to range_max
and recompute each beam endpoint from the given position and heading.  The
trigonometric functions are passed in explicitly (math.cos / math.sin). -/
def init_beams (ls : LaserScanOutput) (current_position : PathNode) (heading : ℚ)
    (cosF sinF : ℚ → ℚ) : LaserScanOutput :=
  { ls with
    state := [current_position.1, current_position.2, heading]
    ranges := List.replicate ls.angles.length ls.range_max
    beam_end_points := ls.angles.map (fun angle =>
      (current_position.1 + ls.range_max * cosF (heading + angle),
       current_position.2 + ls.range_max * sinF (heading + angle))) }

/-- laser_output.LaserScanOutput.update_ranges_and_beams: length-checked
wholesale replacement of the measurement buffer. -/
def update_ranges_and_beams (ls : LaserScanOutput) (current_time : ℚ)
    (new_ranges : List ℚ) (new_beam_end_points : List PathNode) :
    Except String LaserScanOutput :=
  if new_ranges.length ≠ ls.ranges.length then
    .error "The length of new_ranges is wrong."
  else if new_beam_end_points.length ≠ ls.beam_end_points.length then
    .error "The length of new_beam_end_points is wrong."
  else
    .ok { ls with
          timestamp := current_time
          ranges := new_ranges
          beam_end_points := new_beam_end_points }

/-- The length invariant of the scan state: ranges and beam endpoints both
have one entry per beam angle. -/
def lengthInvariant (ls : LaserScanOutput) : Prop :=
  ls.ranges.length = ls.beam_end_points.length ∧
    ls.beam_end_points.length = ls.angles.length

instance (ls : LaserScanOutput) : Decidable (lengthInvariant ls) := by
  unfold lengthInvariant; infer_instance

/-- The two kinds of candidate geometry built by LaserScanner.scan: each
obstacle as a filled shapely Polygon, the boundary as a closed shapely
LineString. -/
inductive Geometry where
  | polygon (vertices : List PathNode)
  | lineString (vertices : List PathNode)
deriving DecidableEq

/-- Abstract model of the external libraries used by LaserScanner.scan:
math.cos / math.sin, shapely Polygon(...).contains(Point(...)) (strict
interior containment), and the beam-geometry intersection test.
beamHit p q g models the block
  geo = geo if geo.is_valid else geo.buffer(0);
  beam = LineString([p, q]);
  if beam.intersects(geo) and not beam.intersection(geo).is_empty:
      return distance from p to the intersection
returning none when the beam misses the geometry. -/
structure ShapelyModel where
  cosF : ℚ → ℚ
  sinF : ℚ → ℚ
  contains : List PathNode → PathNode → Bool
  beamHit : PathNode → PathNode → Geometry → Option ℚ

/-- laser_scanner.BasicMap: the map record held by the scanner. -/
structure BasicMap where
  boundary_coords : List PathNode
  obstacle_list : List (List PathNode)
deriving DecidableEq

/-- laser_scanner.LaserScanner.  The Python attributes _map / laser_scan
exist exactly when the flags _map_prepared / _scanner_prepared are set, so
both pairs are modelled by a single Option each. -/
structure LaserScanner where
  cfg : LaserScanConfig
  map? : Option BasicMap := none
  st : List ℚ := []
  laser_scan? : Option LaserScanOutput := none
deriving DecidableEq

/-- laser_scanner.LaserScanner.load_map. -/
def load_map (sc : LaserScanner) (boundary_coords : List PathNode)
    (obstacle_list : List (List PathNode)) : LaserScanner :=
  { sc with map? := some { boundary_coords := boundary_coords, obstacle_list := obstacle_list } }

/-- laser_scanner.LaserScanner.load_scanner: builds the LaserScanOutput from
the stored configuration (which can fail validation) and records the initial
state. -/
def load_scanner (sc : LaserScanner) (init_position : PathNode) (init_heading : ℚ) :
    Except String LaserScanner :=
  match mkLaserScanOutput sc.cfg with
  | .error e => .error e
  | .ok ls =>
      .ok { sc with
            laser_scan? := some ls
            st := [init_position.1, init_position.2, init_heading] }

/-- The candidate geometry set built by LaserScanner.scan (lines 99-100):
each obstacle as a filled shapely Polygon, then the boundary as a closed
LineString (the boundary vertices plus the repeated first vertex). -/
def scan_geometries (m : BasicMap) : List Geometry :=
  m.obstacle_list.map Geometry.polygon ++
    [Geometry.lineString (m.boundary_coords ++ [m.boundary_coords.headD (0, 0)])]

/-- The inner loop of LaserScanner.scan (lines 104-113): fold over the
candidate geometries keeping the closest intersection distance, starting
from range_max. -/
def beam_closest_distance (M : ShapelyModel) (geometries : List Geometry)
    (origin beam_end : PathNode) (range_max : ℚ) : ℚ :=
  geometries.foldl (fun closest geo =>
    match M.beamHit origin beam_end geo with
    | none => closest
    | some d => if d < closest then d else closest) range_max

/-- The per-beam loop of LaserScanner.scan (lines 101-115): for each relative
angle, build the beam segment of length range_max, compute the closest
intersection distance, and pair it with the resulting beam endpoint. -/
def scan_results (M : ShapelyModel) (m : BasicMap) (ls1 : LaserScanOutput)
    (cx cy ch : ℚ) : List (ℚ × PathNode) :=
  ls1.angles.map (fun relative_angle =>
    let angle := ch + relative_angle
    let beam_end : PathNode :=
      (cx + ls1.range_max * M.cosF angle, cy + ls1.range_max * M.sinF angle)
    let closest :=
      beam_closest_distance M (scan_geometries m) (cx, cy) beam_end ls1.range_max
    (closest,
     ((cx + closest * M.cosF angle, cy + closest * M.sinF angle) : PathNode)))

/-- laser_scanner.LaserScanner.scan.  Returns the updated scanner together
with the list of warnings.warn advisories emitted during the call. -/
def scan (M : ShapelyModel) (sc : LaserScanner) (current_time : ℚ)
    (current_state : List ℚ) : Except String (LaserScanner × List String) :=
  match sc.map? with
  | none => .error "Map not prepared."
  | some m =>
    match sc.laser_scan? with
    | none => .error "Scanner not prepared."
    | some ls =>
      if current_state.length ≠ 3 then .error "Invalid current state."
      else
        let cx := current_state.getD 0 0
        let cy := current_state.getD 1 0
        let ch := current_state.getD 2 0
        let ls1 := init_beams { ls with timestamp := current_time } (cx, cy) ch M.cosF M.sinF
        if M.contains m.boundary_coords (cx, cy) = false then
          .ok ({ sc with st := current_state, laser_scan? := some ls1 },
               ["Scanner is outside the boundary!"])
        else
          let results := scan_results M m ls1 cx cy ch
          match update_ranges_and_beams ls1 current_time
              (results.map Prod.fst) (results.map Prod.snd) with
          | .error e => .error e
          | .ok ls2 => .ok ({ sc with st := current_state, laser_scan? := some ls2 }, [])

/-- The per-beam range described by the spec (section 4.3, step 4c): the
minimum over all geometries of the distance from the sensor to the
beam-geometry intersection, floored at 0 and capped at range_max, with
range_max kept when no geometry intersects the beam. -/
def specBeamRange (range_max : ℚ) (hitDistances : List ℚ) : ℚ :=
  match hitDistances.min? with
  | none => range_max
  | some dmin => max 0 (min range_max dmin)

/-- Boolean test for an Except failure. -/
def isErr {ε α : Type} : Except ε α → Bool
  | .error _ => true
  | .ok _ => false

/-- The scan state committed by the normal path of LaserScanner.scan: the
init_beams baseline with ranges and beam endpoints replaced by the computed
results (the update_ranges_and_beams success case). -/
def scan_committed (M : ShapelyModel) (m : BasicMap) (ls : LaserScanOutput)
    (t cx cy ch : ℚ) : LaserScanOutput :=
  let ls1 := init_beams { ls with timestamp := t } (cx, cy) ch M.cosF M.sinF
  { ls1 with
    timestamp := t
    ranges := (scan_results M m ls1 cx cy ch).map Prod.fst
    beam_end_points := (scan_results M m ls1 cx cy ch).map Prod.snd }

/-- A Python runtime value as far as the scan path observes it: a float
(modelled by a rational) or a value of any other type.  The pose argument of
LaserScanner.scan is a plain Python list whose components need not be
numeric — the guard checks only isinstance(list) and the length — so poses
are modelled as lists of such values in the dynamically-typed refinement of
scan below. -/
inductive PyVal where
  | num (q : ℚ)
  | other (s : String)
deriving DecidableEq

/-- True exactly on numeric values. -/
def PyVal.isNum : PyVal → Bool
  | .num _ => true
  | .other _ => false

/-- Dynamically-typed refinement of LaserScanOutput: identical except that
the stored pose keeps the raw Python values, so a non-numeric pose component
is representable.  Angles, ranges, and endpoints stay numeric: the code only
ever stores floats there. -/
structure DynScanOutput where
  timestamp : ℚ := 0
  frame_id : String := ""
  state : List PyVal := []
  angle_min : ℚ := -1
  angle_max : ℚ := 1
  angle_increment : ℚ := 1
  angles : List ℚ := []
  range_min : ℚ := 0
  range_max : ℚ := 10
  ranges : List ℚ := []
  beam_end_points : List PathNode := []
deriving DecidableEq

/-- Dynamically-typed refinement of LaserScanner. -/
structure DynScanner where
  cfg : LaserScanConfig
  map? : Option BasicMap := none
  st : List PyVal := []
  laser_scan? : Option DynScanOutput := none
deriving DecidableEq

/-- Dynamically-typed refinement of init_beams.  Python executes the three
assignments (_state := pose, _beam_end_points := [], _ranges := replicate)
before the loop; the first loop iteration evaluates heading + angle and
position[i] + range_max * cos/sin(...), which raises a TypeError when any
pose component is not numeric — after the assignments and before any
endpoint is appended.  With an empty angle fan the loop body never runs, so
no error is raised.  An error carries the mutated object, as a propagating
Python exception leaves it. -/
def init_beams_dyn (ls : DynScanOutput) (pos0 pos1 heading : PyVal)
    (cosF sinF : ℚ → ℚ) : Except (String × DynScanOutput) DynScanOutput :=
  let ls1 := { ls with
    state := [pos0, pos1, heading]
    beam_end_points := []
    ranges := List.replicate ls.angles.length ls.range_max }
  match pos0, pos1, heading with
  | .num q0, .num q1, .num qh =>
      .ok { ls1 with beam_end_points := ls.angles.map (fun angle =>
        (q0 + ls.range_max * cosF (qh + angle),
         q1 + ls.range_max * sinF (qh + angle))) }
  | _, _, _ =>
      if ls.angles.isEmpty then .ok ls1
      else .error ("TypeError: unsupported operand type for +", ls1)

/-- The per-beam loop of scan over the dynamically-typed state: the same
computation as scan_results. -/
def scan_results_dyn (M : ShapelyModel) (m : BasicMap) (ls1 : DynScanOutput)
    (cx cy ch : ℚ) : List (ℚ × PathNode) :=
  ls1.angles.map (fun relative_angle =>
    let angle := ch + relative_angle
    let beam_end : PathNode :=
      (cx + ls1.range_max * M.cosF angle, cy + ls1.range_max * M.sinF angle)
    let closest :=
      beam_closest_distance M (scan_geometries m) (cx, cy) beam_end ls1.range_max
    (closest,
     ((cx + closest * M.cosF angle, cy + closest * M.sinF angle) : PathNode)))

/-- update_ranges_and_beams over the dynamically-typed state. -/
def update_ranges_and_beams_dyn (ls : DynScanOutput) (current_time : ℚ)
    (new_ranges : List ℚ) (new_beam_end_points : List PathNode) :
    Except String DynScanOutput :=
  if new_ranges.length ≠ ls.ranges.length then
    .error "The length of new_ranges is wrong."
  else if new_beam_end_points.length ≠ ls.beam_end_points.length then
    .error "The length of new_beam_end_points is wrong."
  else
    .ok { ls with
          timestamp := current_time
          ranges := new_ranges
          beam_end_points := new_beam_end_points }

/-- Dynamically-typed refinement of LaserScanner.scan: the pose is a raw
Python list whose components may be non-numeric.  The outcome is paired with
the scanner state after the call: unchanged when a precondition guard
raises, mutated when an exception from the beam arithmetic propagates (a
Python exception leaves the object as already mutated). -/
def scanDyn (M : ShapelyModel) (sc : DynScanner) (current_time : ℚ)
    (current_state : List PyVal) : Except String (List String) × DynScanner :=
  match sc.map? with
  | none => (.error "Map not prepared.", sc)
  | some m =>
    match sc.laser_scan? with
    | none => (.error "Scanner not prepared.", sc)
    | some ls =>
      if current_state.length ≠ 3 then (.error "Invalid current state.", sc)
      else
        let p0 := current_state.getD 0 (.num 0)
        let p1 := current_state.getD 1 (.num 0)
        let hd := current_state.getD 2 (.num 0)
        let sc1 : DynScanner := { sc with st := current_state }
        match init_beams_dyn { ls with timestamp := current_time } p0 p1 hd
            M.cosF M.sinF with
        | .error epair => (.error epair.1, { sc1 with laser_scan? := some epair.2 })
        | .ok ls1 =>
          let sc2 : DynScanner := { sc1 with laser_scan? := some ls1 }
          match p0, p1 with
          | .num cx, .num cy =>
            if M.contains m.boundary_coords (cx, cy) = false then
              (.ok ["Scanner is outside the boundary!"], sc2)
            else
              match hd with
              | .num ch =>
                let results := scan_results_dyn M m ls1 cx cy ch
                match update_ranges_and_beams_dyn ls1 current_time
                    (results.map Prod.fst) (results.map Prod.snd) with
                | .error e => (.error e, sc2)
                | .ok ls2 => (.ok [], { sc1 with laser_scan? := some ls2 })
              | .other _ =>
                -- reachable only with an empty angle fan (init_beams_dyn
                -- errors otherwise): the per-beam loop runs zero iterations,
                -- heading + angle is never evaluated, and update commits the
                -- untouched copies of the empty buffers
                match update_ranges_and_beams_dyn ls1 current_time
                    ls1.ranges ls1.beam_end_points with
                | .error e => (.error e, sc2)
                | .ok ls2 => (.ok [], { sc1 with laser_scan? := some ls2 })
          | _, _ =>
            -- reachable only with an empty angle fan: shapely's
            -- Point(current_state[0], current_state[1]) rejects the
            -- non-numeric coordinate
            (.error "TypeError: Point coordinates must be numeric", sc2)

/-- A coordinate tuple of arbitrary dimension, as handled by
map_geometric.GeometricMap: the dimension checks there are runtime checks on
tuple length, so a vertex is modelled as a list of numbers. -/
abbrev Vertex : Type := List ℚ

/-- map_geometric.ObstacleInfo.  The vertices entry is optional because
register_obstacle explicitly checks for the presence of the "vertices" key. -/
structure ObstacleInfo where
  id_ : ℤ
  name : String
  vertices? : Option (List Vertex) := none
deriving DecidableEq

/-- map_geometric.GeometricMap state: the boundary plus the id-keyed obstacle
dictionary, modelled as an insertion-ordered association list. -/
structure GeometricMap where
  boundary_coords : List Vertex := []
  obstacle_info_dict : List (ℤ × ObstacleInfo) := []
deriving DecidableEq

/-- Python dict assignment d[k] = v: replace the entry for k in place if it
exists, otherwise append it. -/
def dictInsert (d : List (ℤ × ObstacleInfo)) (k : ℤ) (v : ObstacleInfo) :
    List (ℤ × ObstacleInfo) :=
  match d with
  | [] => [(k, v)]
  | (k0, v0) :: rest =>
      if k0 = k then (k, v) :: rest else (k0, v0) :: dictInsert rest k v

/-- map_geometric.GeometricMap.register_obstacle: requires the "vertices"
key, then checks that the FIRST vertex is 2-dimensional (on an empty vertex
list the subscript obstacle['vertices'][0] raises an IndexError), then stores
the obstacle under its id. -/
def register_obstacle (gm : GeometricMap) (obstacle : ObstacleInfo) :
    Except String GeometricMap :=
  match obstacle.vertices? with
  | none => .error "An obstacle info must have a key vertices."
  | some vertices =>
    match vertices with
    | [] => .error "IndexError: list index out of range"
    | v0 :: _ =>
      if v0.length ≠ 2 then .error "All coordinates must be 2-dimension."
      else .ok { gm with
                 obstacle_info_dict := dictInsert gm.obstacle_info_dict obstacle.id_ obstacle }

/-- map_geometric.GeometricMap.register_boundary: checks that the FIRST
vertex is 2-dimensional (on an empty list the subscript vertices[0] raises an
IndexError) and replaces the boundary. -/
def register_boundary (gm : GeometricMap) (vertices : List Vertex) :
    Except String GeometricMap :=
  match vertices with
  | [] => .error "IndexError: list index out of range"
  | v0 :: _ =>
    if v0.length ≠ 2 then .error "All coordinates must be 2-dimension."
    else .ok { gm with boundary_coords := vertices }

/-! ## Concrete instances used by closed witness theorems -/

/-- One degree in radians, as the double closest to pi/180. -/
def degQ : ℚ := 17453292519943295 / 1000000000000000000

def cfgValid : LaserScanConfig :=
  { angle_min := -1, angle_max := 1, angle_increment := 1,
    range_min := 0, range_max := 2, frame_id := "sensor" }

def cfgZeroInc : LaserScanConfig :=
  { angle_min := -1, angle_max := 1, angle_increment := 0,
    range_min := 0, range_max := 10, frame_id := "sensor" }

def cfgDegReversed : LaserScanConfig :=
  { angle_min := 10 * degQ, angle_max := -10 * degQ, angle_increment := degQ,
    range_min := 0, range_max := 10, frame_id := "sensor" }

/-- A valid configuration whose angular span is an exact half-integer number
of increments: angle span 3, increment 2. -/
def cfgHalfStep : LaserScanConfig :=
  { angle_min := 0, angle_max := 3, angle_increment := 2,
    range_min := 0, range_max := 10, frame_id := "sensor" }

def ls0 : LaserScanOutput :=
  { angle_min := -1, angle_max := 1, angle_increment := 1, angles := [-1, 0, 1],
    range_min := 0, range_max := 2 }

def m0 : BasicMap :=
  { boundary_coords := [(0, 0), (4, 0), (4, 4), (0, 4)],
    obstacle_list := [[(1, 1), (2, 1), (2, 2), (1, 2)]] }

/-- A concrete shapely model: constant trigonometry, sensor always inside,
every beam hitting obstacles at distance 1 and the boundary at distance 3. -/
def M0 : ShapelyModel :=
  { cosF := fun _ => 1
    sinF := fun _ => 0
    contains := fun _ _ => true
    beamHit := fun _ _ geo =>
      match geo with
      | .polygon _ => some 1
      | .lineString _ => some 3 }

/-- Like M0, but the sensor position always tests outside the boundary. -/
def Mout : ShapelyModel :=
  { M0 with contains := fun _ _ => false }

def sc0 : LaserScanner :=
  { cfg := cfgValid, map? := some m0, st := [1, 1, 0], laser_scan? := some ls0 }

def dscNoMap : DynScanner := { cfg := cfgValid }

def dscNoScanner : DynScanner := { cfg := cfgValid, map? := some m0 }

/-- A dynamically-typed scan state holding the results of an earlier scan:
timestamp 5, pose (9, 9, 9), committed ranges and endpoints. -/
def dls6 : DynScanOutput :=
  { timestamp := 5, state := [.num 9, .num 9, .num 9],
    angle_min := -1, angle_max := 1, angle_increment := 1, angles := [-1, 0, 1],
    range_min := 0, range_max := 2,
    ranges := [7, 7, 7], beam_end_points := [(3, 3), (3, 3), (3, 3)] }

/-- A prepared dynamically-typed scanner carrying dls6. -/
def dsc6 : DynScanner :=
  { cfg := cfgValid, map? := some m0, st := [.num 9, .num 9, .num 9],
    laser_scan? := some dls6 }

def lsHalfStep : LaserScanOutput := (mkLaserScanOutput cfgHalfStep).toOption.getD ls0

def gm0 : GeometricMap := {}

def ob0 : ObstacleInfo := { id_ := 1, name := "obstacle_1", vertices? := some [[5, 5]] }

def ob1 : ObstacleInfo := { id_ := 1, name := "obstacle_1b", vertices? := some [[6, 6]] }

/-- ls0 after init_beams: a scan state satisfying the length invariant. -/
def ls0b : LaserScanOutput := init_beams ls0 (1, 1) 0 (fun _ => 1) (fun _ => 0)

def updated0 : LaserScanOutput :=
  { ls0b with timestamp := 0, ranges := [0, 0, 0],
              beam_end_points := [(0, 0), (0, 0), (0, 0)] }

/-- The scanner state after the concrete scan of sc0 under the model M0. -/
def scanned0sc : LaserScanner :=
  { cfg := cfgValid, map? := some m0, st := [1, 1, 0],
    laser_scan? := some (scan_committed M0 m0 ls0 0 1 1 0) }

/-! ## Helper lemmas -/

/-- The executable Batteries ceiling on the rationals agrees with the
mathematical ceiling. -/
lemma ratCeil_eq_ceil (q : ℚ) : (Rat.ceil q : ℤ) = ⌈q⌉ := by
  unfold Rat.ceil
  split
  · next h =>
      conv_rhs => rw [← Rat.coe_int_num_of_den_eq_one h]
      exact (Int.ceil_intCast q.num).symm
  · next h =>
      rw [show ((q.num / q.den : ℤ)) = ⌊q⌋ from Rat.floor_def.symm]
      have h1 : (⌊q⌋ : ℚ) ≠ q := by
        intro he
        exact h (by rw [← he]; exact Rat.den_intCast ⌊q⌋)
      have h2 : (⌊q⌋ : ℚ) < q := lt_of_le_of_ne (Int.floor_le q) h1
      have h3 : ⌊q⌋ + 1 ≤ ⌈q⌉ := by
        have h4 : (⌊q⌋ : ℚ) < (⌈q⌉ : ℚ) := lt_of_lt_of_le h2 (Int.le_ceil q)
        exact Int.add_one_le_of_lt (by exact_mod_cast h4)
      exact le_antisymm h3 (Int.ceil_le_floor_add_one q)

lemma arange_length (start stop step : ℚ) :
    (arange start stop step).length = (⌈(stop - start) / step⌉).toNat := by
  rw [arange, List.length_map, List.length_range, ratCeil_eq_ceil]

lemma getD_map {α β : Type} (f : α → β) (l : List α) (i : ℕ) (hi : i < l.length)
    (d : β) (d' : α) : (l.map f).getD i d = f (l.getD i d') := by
  rw [List.getD_eq_getElem _ _ (by simpa using hi), List.getD_eq_getElem _ _ hi,
    List.getElem_map]

lemma arange_getD (start stop step : ℚ) (i : ℕ) (d : ℚ)
    (hi : i < (arange start stop step).length) :
    (arange start stop step).getD i d = start + (i : ℚ) * step := by
  unfold arange at hi ⊢
  rw [getD_map _ _ _ (by simpa using hi) d 0,
    List.getD_eq_getElem _ _ (by simpa using hi), List.getElem_range]

lemma foldl_min_eq (l : List ℚ) : ∀ a : ℚ,
    l.foldl min a = match l.min? with | none => a | some m => min a m := by
  induction l with
  | nil => intro a; rfl
  | cons d l ih =>
      intro a
      show l.foldl min (min a d) = min a (l.foldl min d)
      rw [ih (min a d), ih d]
      cases h : l.min? with
      | none => rfl
      | some m => exact min_assoc a d m

lemma foldl_if_lt_eq_min (l : List ℚ) : ∀ a : ℚ,
    l.foldl (fun c d => if d < c then d else c) a = l.foldl min a := by
  induction l with
  | nil => intro a; rfl
  | cons d l ih =>
      intro a
      show l.foldl (fun c d => if d < c then d else c) (if d < a then d else a) =
        l.foldl min (min a d)
      rw [ih]
      congr 1
      rcases lt_or_ge d a with h | h
      · rw [if_pos h, min_eq_right h.le]
      · rw [if_neg (not_lt.mpr h), min_eq_left h]

lemma foldl_min_nonneg (l : List ℚ) : ∀ a : ℚ, 0 ≤ a → (∀ x ∈ l, 0 ≤ x) →
    0 ≤ l.foldl min a := by
  induction l with
  | nil => intro a ha _; exact ha
  | cons d l ih =>
      intro a ha hl
      exact ih (min a d) (le_min ha (hl d (List.mem_cons_self d l))) fun x hx =>
        hl x (List.mem_cons_of_mem d hx)

lemma foldl_hit_eq_filterMap (hit : Geometry → Option ℚ) (gs : List Geometry) :
    ∀ a : ℚ,
    gs.foldl (fun c g => match hit g with
      | none => c
      | some d => if d < c then d else c) a
      = (gs.filterMap hit).foldl (fun c d => if d < c then d else c) a := by
  induction gs with
  | nil => intro a; rfl
  | cons g gs ih =>
      intro a
      rw [List.foldl_cons, List.filterMap_cons]
      cases h : hit g with
      | none => simp only [h]; exact ih a
      | some d => simp only [h, List.foldl_cons]; exact ih _

/-- The ray-casting fold of LaserScanner.scan computes exactly the spec's
per-beam range once every hit distance is nonnegative (shapely distances are
Euclidean, hence nonnegative) and range_max is nonnegative. -/
lemma rayFold_eq_spec (range_max : ℚ) (ds : List ℚ) (h0 : 0 ≤ range_max)
    (hds : ∀ d ∈ ds, 0 ≤ d) :
    ds.foldl (fun c d => if d < c then d else c) range_max =
      specBeamRange range_max ds := by
  rw [foldl_if_lt_eq_min, foldl_min_eq]
  unfold specBeamRange
  cases ds with
  | nil => rfl
  | cons d l =>
      show min range_max (l.foldl min d) = max 0 (min range_max (l.foldl min d))
      have hnn : 0 ≤ l.foldl min d :=
        foldl_min_nonneg l d (hds d (List.mem_cons_self d l))
          fun x hx => hds x (List.mem_cons_of_mem d hx)
      exact (max_eq_right (le_min h0 hnn)).symm

lemma init_beams_angles (ls : LaserScanOutput) (pos : PathNode) (heading : ℚ)
    (cF sF : ℚ → ℚ) : (init_beams ls pos heading cF sF).angles = ls.angles := rfl

lemma init_beams_range_max (ls : LaserScanOutput) (pos : PathNode) (heading : ℚ)
    (cF sF : ℚ → ℚ) : (init_beams ls pos heading cF sF).range_max = ls.range_max := rfl

lemma init_beams_ranges_length (ls : LaserScanOutput) (pos : PathNode) (heading : ℚ)
    (cF sF : ℚ → ℚ) :
    (init_beams ls pos heading cF sF).ranges.length = ls.angles.length := by
  simp [init_beams]

lemma init_beams_beams_length (ls : LaserScanOutput) (pos : PathNode) (heading : ℚ)
    (cF sF : ℚ → ℚ) :
    (init_beams ls pos heading cF sF).beam_end_points.length = ls.angles.length := by
  simp [init_beams]

lemma scan_results_length (M : ShapelyModel) (m : BasicMap) (ls1 : LaserScanOutput)
    (cx cy ch : ℚ) : (scan_results M m ls1 cx cy ch).length = ls1.angles.length := by
  simp [scan_results]

/-- The early-return path of LaserScanner.scan: sensor not strictly inside
the boundary. -/
lemma scan_outside (M : ShapelyModel) (cfg : LaserScanConfig) (m : BasicMap)
    (st0 : List ℚ) (ls : LaserScanOutput) (t cx cy ch : ℚ)
    (hout : M.contains m.boundary_coords (cx, cy) = false) :
    scan M ⟨cfg, some m, st0, some ls⟩ t [cx, cy, ch] =
      .ok (⟨cfg, some m, [cx, cy, ch],
            some (init_beams { ls with timestamp := t } (cx, cy) ch M.cosF M.sinF)⟩,
           ["Scanner is outside the boundary!"]) := by
  unfold scan
  simp [hout]

/-- The normal path of LaserScanner.scan: sensor strictly inside the
boundary; the computed ranges and beam endpoints are committed. -/
lemma scan_inside (M : ShapelyModel) (cfg : LaserScanConfig) (m : BasicMap)
    (st0 : List ℚ) (ls : LaserScanOutput) (t cx cy ch : ℚ)
    (hin : M.contains m.boundary_coords (cx, cy) = true) :
    scan M ⟨cfg, some m, st0, some ls⟩ t [cx, cy, ch] =
      .ok (⟨cfg, some m, [cx, cy, ch], some (scan_committed M m ls t cx cy ch)⟩, []) := by
  unfold scan update_ranges_and_beams scan_committed
  simp [hin, scan_results_length, init_beams_ranges_length, init_beams_beams_length,
    init_beams_angles]

lemma scan_results_getD (M : ShapelyModel) (m : BasicMap) (ls1 : LaserScanOutput)
    (cx cy ch : ℚ) (i : ℕ) (d : ℚ × PathNode) (hi : i < ls1.angles.length) :
    (scan_results M m ls1 cx cy ch).getD i d =
      (beam_closest_distance M (scan_geometries m) (cx, cy)
         (cx + ls1.range_max * M.cosF (ch + ls1.angles.getD i 0),
          cy + ls1.range_max * M.sinF (ch + ls1.angles.getD i 0)) ls1.range_max,
       (cx + beam_closest_distance M (scan_geometries m) (cx, cy)
           (cx + ls1.range_max * M.cosF (ch + ls1.angles.getD i 0),
            cy + ls1.range_max * M.sinF (ch + ls1.angles.getD i 0)) ls1.range_max *
           M.cosF (ch + ls1.angles.getD i 0),
        cy + beam_closest_distance M (scan_geometries m) (cx, cy)
           (cx + ls1.range_max * M.cosF (ch + ls1.angles.getD i 0),
            cy + ls1.range_max * M.sinF (ch + ls1.angles.getD i 0)) ls1.range_max *
           M.sinF (ch + ls1.angles.getD i 0))) := by
  unfold scan_results
  rw [getD_map _ _ _ hi d 0]

/-- The closest-distance fold equals the spec-side per-beam range under the
nonnegativity facts a faithful shapely model satisfies. -/
lemma beam_closest_distance_eq_spec (M : ShapelyModel) (gs : List Geometry)
    (p q : PathNode) (range_max : ℚ) (h0 : 0 ≤ range_max)
    (hnn : ∀ a b g d, M.beamHit a b g = some d → 0 ≤ d) :
    beam_closest_distance M gs p q range_max =
      specBeamRange range_max (gs.filterMap (M.beamHit p q)) := by
  unfold beam_closest_distance
  rw [foldl_hit_eq_filterMap (M.beamHit p q) gs range_max]
  exact rayFold_eq_spec range_max _ h0 fun d hd => by
    obtain ⟨g, _, hg⟩ := List.mem_filterMap.mp hd
    exact hnn p q g d hg

lemma init_beams_stable (M : ShapelyModel) (ls : LaserScanOutput) (pos : PathNode)
    (hd t : ℚ) :
    init_beams
      { init_beams { ls with timestamp := t } pos hd M.cosF M.sinF with timestamp := t }
      pos hd M.cosF M.sinF
      = init_beams { ls with timestamp := t } pos hd M.cosF M.sinF := rfl

lemma init_beams_scan_committed (M : ShapelyModel) (m : BasicMap)
    (ls : LaserScanOutput) (t cx cy ch : ℚ) :
    init_beams { scan_committed M m ls t cx cy ch with timestamp := t } (cx, cy) ch
        M.cosF M.sinF
      = init_beams { ls with timestamp := t } (cx, cy) ch M.cosF M.sinF := rfl

lemma scan_committed_stable (M : ShapelyModel) (m : BasicMap)
    (ls : LaserScanOutput) (t cx cy ch : ℚ) :
    scan_committed M m (scan_committed M m ls t cx cy ch) t cx cy ch =
      scan_committed M m ls t cx cy ch := rfl

lemma scan_committed_ranges (M : ShapelyModel) (m : BasicMap) (ls : LaserScanOutput)
    (t cx cy ch : ℚ) :
    (scan_committed M m ls t cx cy ch).ranges =
      (scan_results M m (init_beams { ls with timestamp := t } (cx, cy) ch M.cosF M.sinF)
        cx cy ch).map Prod.fst := rfl

lemma scan_committed_beams (M : ShapelyModel) (m : BasicMap) (ls : LaserScanOutput)
    (t cx cy ch : ℚ) :
    (scan_committed M m ls t cx cy ch).beam_end_points =
      (scan_results M m (init_beams { ls with timestamp := t } (cx, cy) ch M.cosF M.sinF)
        cx cy ch).map Prod.snd := rfl

/-- On an all-numeric pose, the dynamically-typed init_beams computes
exactly the fields init_beams computes. -/
lemma init_beams_dyn_numeric (ls : DynScanOutput) (q0 q1 qh : ℚ)
    (cF sF : ℚ → ℚ) :
    init_beams_dyn ls (.num q0) (.num q1) (.num qh) cF sF =
      .ok { ls with
            state := [.num q0, .num q1, .num qh]
            ranges := List.replicate ls.angles.length ls.range_max
            beam_end_points := ls.angles.map (fun angle =>
              (q0 + ls.range_max * cF (qh + angle),
               q1 + ls.range_max * sF (qh + angle))) } := rfl

/-- The dynamically-typed per-beam loop agrees with scan_results on states
with the same angles and range_max. -/
lemma scan_results_dyn_eq (M : ShapelyModel) (m : BasicMap) (d : DynScanOutput)
    (l : LaserScanOutput) (cx cy ch : ℚ) (hang : d.angles = l.angles)
    (hrm : d.range_max = l.range_max) :
    scan_results_dyn M m d cx cy ch = scan_results M m l cx cy ch := by
  unfold scan_results_dyn scan_results
  rw [hang, hrm]

/-- The validation gap of LaserScanner.scan: a 3-element pose with a
non-numeric component passes the isinstance/length guard, and scan raises a
TypeError from the beam arithmetic only after the pose, the timestamp, the
ranges, and the beam endpoints have been refreshed. -/
lemma scanDyn_typeerror (M : ShapelyModel) (cfg : LaserScanConfig) (m : BasicMap)
    (stD : List PyVal) (ls : DynScanOutput) (t : ℚ) (p0 p1 hd : PyVal)
    (hne : ls.angles ≠ [])
    (hnn : p0.isNum = false ∨ p1.isNum = false ∨ hd.isNum = false) :
    scanDyn M ⟨cfg, some m, stD, some ls⟩ t [p0, p1, hd] =
      (.error "TypeError: unsupported operand type for +",
       ⟨cfg, some m, [p0, p1, hd],
        some { ls with
               timestamp := t
               state := [p0, p1, hd]
               ranges := List.replicate ls.angles.length ls.range_max
               beam_end_points := [] }⟩) := by
  have hemp : ls.angles.isEmpty = false := by
    cases hA : ls.angles with
    | nil => exact absurd hA hne
    | cons a l => rfl
  cases p0 with
  | num q0 =>
    cases p1 with
    | num q1 =>
      cases hd with
      | num qh => rcases hnn with h | h | h <;> simp [PyVal.isNum] at h
      | other s => simp [scanDyn, init_beams_dyn, hemp]
    | other s => cases hd <;> simp [scanDyn, init_beams_dyn, hemp]
  | other s => cases p1 <;> cases hd <;> simp [scanDyn, init_beams_dyn, hemp]

lemma init_beams_invariant (ls : LaserScanOutput) (pos : PathNode) (heading : ℚ)
    (cF sF : ℚ → ℚ) : lengthInvariant (init_beams ls pos heading cF sF) := by
  simp [lengthInvariant, init_beams]

lemma update_ok_invariant (ls ls' : LaserScanOutput) (t : ℚ) (r : List ℚ)
    (b : List PathNode) (hinv : lengthInvariant ls)
    (h : update_ranges_and_beams ls t r b = .ok ls') : lengthInvariant ls' := by
  unfold update_ranges_and_beams at h
  split_ifs at h with h1 h2
  simp only [Except.ok.injEq] at h
  subst h
  obtain ⟨hi1, hi2⟩ := hinv
  rw [not_not] at h1 h2
  exact ⟨by rw [h1, h2, hi1], by rw [h2, hi2]⟩

lemma scan_committed_invariant (M : ShapelyModel) (m : BasicMap)
    (ls : LaserScanOutput) (t cx cy ch : ℚ) :
    lengthInvariant (scan_committed M m ls t cx cy ch) := by
  unfold lengthInvariant scan_committed
  simp [scan_results_length, init_beams_angles]

lemma scan_ok_invariant (M : ShapelyModel) (sc sc' : LaserScanner) (t : ℚ)
    (cur : List ℚ) (w : List String) (ls' : LaserScanOutput)
    (h : scan M sc t cur = .ok (sc', w)) (hls : sc'.laser_scan? = some ls') :
    lengthInvariant ls' := by
  obtain ⟨cfg, mo, st0, lo⟩ := sc
  cases mo with
  | none => exact absurd h (by simp [scan])
  | some m =>
  cases lo with
  | none => exact absurd h (by simp [scan])
  | some ls =>
  by_cases hlen : cur.length = 3
  · obtain ⟨cx, cy, ch, rfl⟩ := List.length_eq_three.mp hlen
    cases hc : M.contains m.boundary_coords (cx, cy) with
    | false =>
        rw [scan_outside M cfg m st0 ls t cx cy ch hc] at h
        simp only [Except.ok.injEq, Prod.mk.injEq] at h
        obtain ⟨h1, -⟩ := h
        subst h1
        simp only [Option.some.injEq] at hls
        subst hls
        exact init_beams_invariant _ _ _ _ _
    | true =>
        rw [scan_inside M cfg m st0 ls t cx cy ch hc] at h
        simp only [Except.ok.injEq, Prod.mk.injEq] at h
        obtain ⟨h1, -⟩ := h
        subst h1
        simp only [Option.some.injEq] at hls
        subst hls
        exact scan_committed_invariant M m ls t cx cy ch
  · exact absurd h (by simp [scan, hlen])

/-! ## Claim theorems -/

/-- Claim C5: construction of the sensor (the LaserScanOutput built from a
configuration, as done by from_config) raises a fatal error if and only if
angle_min > angle_max, or angle_increment ≤ 0, or
angle_increment > angle_max − angle_min; in particular a configuration with
angle_increment = 0 fails, and one with angle_min = 10° and
angle_max = −10° fails. -/
theorem C5_construction_fails_iff :
    (∀ cfg : LaserScanConfig,
      isErr (mkLaserScanOutput cfg) = true ↔
        (cfg.angle_min > cfg.angle_max ∨ cfg.angle_increment ≤ 0 ∨
          cfg.angle_increment > cfg.angle_max - cfg.angle_min)) ∧
    isErr (mkLaserScanOutput cfgZeroInc) = true ∧
    isErr (mkLaserScanOutput cfgDegReversed) = true := by
  refine ⟨fun cfg => ?_, by decide, ?_⟩
  · unfold mkLaserScanOutput
    split_ifs with h1 h2
    · simpa [isErr] using Or.inl h1
    · simpa [isErr] using Or.inr h2
    · simp only [isErr, Bool.false_eq_true, false_iff]
      rw [not_or]
      exact ⟨h1, h2⟩
  · unfold mkLaserScanOutput
    rw [if_pos (show cfgDegReversed.angle_min > cfgDegReversed.angle_max by
      norm_num [cfgDegReversed, degQ])]
    rfl

/-- Witness for C5 at a concrete failing configuration. -/
theorem C5_construction_fails_iff_witness :
    isErr (mkLaserScanOutput cfgZeroInc) = true :=
  (C5_construction_fails_iff.1 cfgZeroInc).mpr (Or.inr (Or.inl (by decide)))

/-- Counterexample to C6 at the pose [1, 2, "h"]: a 3-element list with a
non-numeric heading passes the isinstance/length guard, so scan does fail
(with a TypeError from the beam arithmetic) but only after mutating the
scanner — the stored pose, the timestamp, the ranges, and the beam
endpoints of the prior scan are all replaced by the failed call, refuting
that they are all unchanged. -/
theorem C6_counterexample :
    isErr (scanDyn M0 dsc6 1 [.num 1, .num 2, .other "h"]).1 = true ∧
    (scanDyn M0 dsc6 1 [.num 1, .num 2, .other "h"]).2.st ≠ dsc6.st ∧
    ((scanDyn M0 dsc6 1
        [.num 1, .num 2, .other "h"]).2.laser_scan?.getD dls6).timestamp ≠
      dls6.timestamp ∧
    ((scanDyn M0 dsc6 1
        [.num 1, .num 2, .other "h"]).2.laser_scan?.getD dls6).ranges ≠
      dls6.ranges ∧
    ((scanDyn M0 dsc6 1
        [.num 1, .num 2, .other "h"]).2.laser_scan?.getD dls6).beam_end_points ≠
      dls6.beam_end_points := by
  decide

/-- Claim C6, amended: scan called before the map is loaded, before the
scanner is loaded, or with a pose that is not a 3-element list fails with an
error and performs no computation — the returned scanner state is unchanged.
But a pose that is a 3-element list with a non-numeric component passes the
isinstance/length guard: scan still fails (a TypeError from the beam
arithmetic, given at least one beam angle), yet only after the stored pose,
the timestamp, the ranges, and the beam endpoints have been refreshed — the
failed call leaves the state partially mutated, not unchanged. -/
theorem C6_scan_validation :
    (∀ (M : ShapelyModel) (sc : DynScanner) (t : ℚ) (cur : List PyVal),
      sc.map? = none → scanDyn M sc t cur = (.error "Map not prepared.", sc)) ∧
    (∀ (M : ShapelyModel) (sc : DynScanner) (t : ℚ) (cur : List PyVal)
      (m : BasicMap), sc.map? = some m → sc.laser_scan? = none →
        scanDyn M sc t cur = (.error "Scanner not prepared.", sc)) ∧
    (∀ (M : ShapelyModel) (sc : DynScanner) (t : ℚ) (cur : List PyVal)
      (m : BasicMap) (ls : DynScanOutput), sc.map? = some m →
      sc.laser_scan? = some ls → cur.length ≠ 3 →
        scanDyn M sc t cur = (.error "Invalid current state.", sc)) ∧
    (∀ (M : ShapelyModel) (sc : DynScanner) (t : ℚ) (m : BasicMap)
      (ls : DynScanOutput) (p0 p1 hd : PyVal), sc.map? = some m →
      sc.laser_scan? = some ls → ls.angles ≠ [] →
      (p0.isNum = false ∨ p1.isNum = false ∨ hd.isNum = false) →
        scanDyn M sc t [p0, p1, hd] =
          (.error "TypeError: unsupported operand type for +",
           { sc with
             st := [p0, p1, hd]
             laser_scan? := some { ls with
               timestamp := t
               state := [p0, p1, hd]
               ranges := List.replicate ls.angles.length ls.range_max
               beam_end_points := [] } })) := by
  refine ⟨?_, ?_, ?_, ?_⟩
  · intro M sc t cur h
    obtain ⟨cfg, mo, stD, lo⟩ := sc
    cases mo with
    | none => rfl
    | some m => exact absurd h (by simp)
  · intro M sc t cur m h1 h2
    obtain ⟨cfg, mo, stD, lo⟩ := sc
    cases mo with
    | none => exact absurd h1 (by simp)
    | some m2 =>
      cases lo with
      | none => rfl
      | some ls => exact absurd h2 (by simp)
  · intro M sc t cur m ls h1 h2 h3
    obtain ⟨cfg, mo, stD, lo⟩ := sc
    cases mo with
    | none => exact absurd h1 (by simp)
    | some m2 =>
      cases lo with
      | none => exact absurd h2 (by simp)
      | some ls2 =>
        unfold scanDyn
        simp [h3]
  · intro M sc t m ls p0 p1 hd h1 h2 hne hnn
    obtain ⟨cfg, mo, stD, lo⟩ := sc
    cases mo with
    | none => exact absurd h1 (by simp)
    | some m2 =>
      cases lo with
      | none => exact absurd h2 (by simp)
      | some ls2 =>
        simp only [Option.some.injEq] at h1 h2
        subst h1
        subst h2
        exact scanDyn_typeerror M cfg _ stD _ t p0 p1 hd hne hnn

/-- Witness for the amended C6 at concrete inputs for all four cases. -/
theorem C6_scan_validation_witness :
    scanDyn M0 dscNoMap 0 [] = (.error "Map not prepared.", dscNoMap) ∧
    scanDyn M0 dscNoScanner 0 [] = (.error "Scanner not prepared.", dscNoScanner) ∧
    scanDyn M0 dsc6 0 [] = (.error "Invalid current state.", dsc6) ∧
    scanDyn M0 dsc6 1 [.num 1, .num 2, .other "h"] =
      (.error "TypeError: unsupported operand type for +",
       { dsc6 with
         st := [.num 1, .num 2, .other "h"]
         laser_scan? := some { dls6 with
           timestamp := 1
           state := [.num 1, .num 2, .other "h"]
           ranges := List.replicate dls6.angles.length dls6.range_max
           beam_end_points := [] } }) :=
  ⟨C6_scan_validation.1 M0 dscNoMap 0 [] rfl,
   C6_scan_validation.2.1 M0 dscNoScanner 0 [] m0 rfl rfl,
   C6_scan_validation.2.2.1 M0 dsc6 0 [] m0 dls6 rfl rfl (by decide),
   C6_scan_validation.2.2.2 M0 dsc6 1 m0 dls6 (.num 1) (.num 2) (.other "h")
     rfl rfl (by decide) (Or.inr (Or.inr rfl))⟩

/-- Claim C8: update fails with a length-mismatch error when either new
buffer disagrees in length with the current one (committing nothing — the
error carries no state), and on success replaces timestamp, ranges, and
endpoints together. -/
theorem C8_update_all_or_nothing :
    (∀ (ls : LaserScanOutput) (t : ℚ) (r : List ℚ) (b : List PathNode),
      (r.length ≠ ls.ranges.length ∨ b.length ≠ ls.beam_end_points.length) →
        ∃ msg, update_ranges_and_beams ls t r b = .error msg) ∧
    (∀ (ls : LaserScanOutput) (t : ℚ) (r : List ℚ) (b : List PathNode),
      r.length = ls.ranges.length → b.length = ls.beam_end_points.length →
        update_ranges_and_beams ls t r b =
          .ok { ls with timestamp := t, ranges := r, beam_end_points := b }) := by
  constructor
  · intro ls t r b h
    unfold update_ranges_and_beams
    rcases h with h | h
    · rw [if_pos h]
      exact ⟨_, rfl⟩
    · by_cases h1 : r.length ≠ ls.ranges.length
      · rw [if_pos h1]
        exact ⟨_, rfl⟩
      · rw [if_neg h1, if_pos h]
        exact ⟨_, rfl⟩
  · intro ls t r b h1 h2
    unfold update_ranges_and_beams
    rw [if_neg (not_not_intro h1), if_neg (not_not_intro h2)]

/-- Witness for C8: a mismatched and a matched update on a concrete state. -/
theorem C8_update_all_or_nothing_witness :
    (∃ msg, update_ranges_and_beams ls0 0 [1] [] = .error msg) ∧
    update_ranges_and_beams ls0 0 [] [] =
      .ok { ls0 with timestamp := 0, ranges := [], beam_end_points := [] } :=
  ⟨C8_update_all_or_nothing.1 ls0 0 [1] [] (Or.inl (by decide)),
   C8_update_all_or_nothing.2 ls0 0 [] [] (by decide) (by decide)⟩

/-- Claim C3: init_beams, every successful update, and every successful scan
call (including the out-of-boundary early return) leave the scan state with
len(ranges) = len(beam_endpoints) = len(angles); the two buffers are only
ever replaced together. -/
theorem C3_length_invariant :
    (∀ (ls : LaserScanOutput) (pos : PathNode) (heading : ℚ) (cF sF : ℚ → ℚ),
      lengthInvariant (init_beams ls pos heading cF sF)) ∧
    (∀ (ls ls' : LaserScanOutput) (t : ℚ) (r : List ℚ) (b : List PathNode),
      lengthInvariant ls → update_ranges_and_beams ls t r b = .ok ls' →
        lengthInvariant ls') ∧
    (∀ (M : ShapelyModel) (sc sc' : LaserScanner) (t : ℚ) (cur : List ℚ)
      (w : List String) (ls' : LaserScanOutput),
      scan M sc t cur = .ok (sc', w) → sc'.laser_scan? = some ls' →
        lengthInvariant ls') :=
  ⟨fun ls pos heading cF sF => init_beams_invariant ls pos heading cF sF,
   fun ls ls' t r b hinv h => update_ok_invariant ls ls' t r b hinv h,
   fun M sc sc' t cur w ls' h hls => scan_ok_invariant M sc sc' t cur w ls' h hls⟩

/-- Witness for C3 on concrete runs of all three operations. -/
theorem C3_length_invariant_witness :
    lengthInvariant (init_beams ls0 (1, 1) 0 (fun _ => 1) (fun _ => 0)) ∧
    lengthInvariant updated0 ∧
    lengthInvariant (scan_committed M0 m0 ls0 0 1 1 0) :=
  ⟨C3_length_invariant.1 ls0 (1, 1) 0 (fun _ => 1) (fun _ => 0),
   C3_length_invariant.2.1 ls0b updated0 0 [0, 0, 0] [(0, 0), (0, 0), (0, 0)]
     (by decide) (by rfl),
   C3_length_invariant.2.2 M0 sc0
     ⟨cfgValid, some m0, [1, 1, 0], some (scan_committed M0 m0 ls0 0 1 1 0)⟩ 0
     [1, 1, 0] [] (scan_committed M0 m0 ls0 0 1 1 0)
     (scan_inside M0 cfgValid m0 [1, 1, 0] ls0 0 1 1 0 rfl) rfl⟩

/-- Claim C2: when the preconditions hold but the sensor position does not
test strictly inside the boundary polygon, scan does not raise: it emits the
advisory and returns a state whose every range equals range_max, regardless
of obstacle placement (the map m, its obstacles included, is universally
quantified and the conclusion does not depend on them). -/
theorem C2_outside_boundary_baseline (M : ShapelyModel) (cfg : LaserScanConfig)
    (m : BasicMap) (st0 : List ℚ) (ls : LaserScanOutput) (t cx cy ch : ℚ)
    (hout : M.contains m.boundary_coords (cx, cy) = false) :
    ∃ sc' ls', scan M ⟨cfg, some m, st0, some ls⟩ t [cx, cy, ch] =
        .ok (sc', ["Scanner is outside the boundary!"]) ∧
      sc'.laser_scan? = some ls' ∧
      ls'.ranges = List.replicate ls.angles.length ls.range_max := by
  rw [scan_outside M cfg m st0 ls t cx cy ch hout]
  exact ⟨_, _, rfl, rfl, rfl⟩

/-- Witness for C2: a concrete scan with the sensor outside the boundary. -/
theorem C2_outside_boundary_baseline_witness :
    ∃ sc' ls', scan Mout ⟨cfgValid, some m0, [1, 1, 0], some ls0⟩ 0 [1, 1, 0] =
        .ok (sc', ["Scanner is outside the boundary!"]) ∧
      sc'.laser_scan? = some ls' ∧
      ls'.ranges = List.replicate ls0.angles.length ls0.range_max :=
  C2_outside_boundary_baseline Mout cfgValid m0 [1, 1, 0] ls0 0 1 1 0 rfl

/-- Claim C10: when the containment guard triggers, the early-returned state
is partially refreshed rather than the previous scan: its timestamp is the
supplied timestamp, its stored pose is the supplied pose (both in the
scanner and in the scan state), and every beam endpoint is recomputed at
range_max from the new pose; only the final commit step is skipped. -/
theorem C10_guard_partial_refresh (M : ShapelyModel) (cfg : LaserScanConfig)
    (m : BasicMap) (st0 : List ℚ) (ls : LaserScanOutput) (t cx cy ch : ℚ)
    (hout : M.contains m.boundary_coords (cx, cy) = false) :
    ∃ sc' ls', scan M ⟨cfg, some m, st0, some ls⟩ t [cx, cy, ch] =
        .ok (sc', ["Scanner is outside the boundary!"]) ∧
      sc'.st = [cx, cy, ch] ∧
      sc'.laser_scan? = some ls' ∧
      ls'.timestamp = t ∧
      ls'.state = [cx, cy, ch] ∧
      ls'.ranges = List.replicate ls.angles.length ls.range_max ∧
      ls'.beam_end_points = ls.angles.map (fun angle =>
        (cx + ls.range_max * M.cosF (ch + angle),
         cy + ls.range_max * M.sinF (ch + angle))) := by
  rw [scan_outside M cfg m st0 ls t cx cy ch hout]
  exact ⟨_, _, rfl, rfl, rfl, rfl, rfl, rfl, rfl⟩

/-- Witness for C10 at a concrete out-of-boundary scan. -/
theorem C10_guard_partial_refresh_witness :
    ∃ sc' ls', scan Mout ⟨cfgValid, some m0, [9, 9, 9], some ls0⟩ 7 [2, 3, 1] =
        .ok (sc', ["Scanner is outside the boundary!"]) ∧
      sc'.st = [2, 3, 1] ∧
      sc'.laser_scan? = some ls' ∧
      ls'.timestamp = 7 ∧
      ls'.state = [2, 3, 1] ∧
      ls'.ranges = List.replicate ls0.angles.length ls0.range_max ∧
      ls'.beam_end_points = ls0.angles.map (fun angle =>
        (2 + ls0.range_max * Mout.cosF (1 + angle),
         3 + ls0.range_max * Mout.sinF (1 + angle))) :=
  C10_guard_partial_refresh Mout cfgValid m0 [9, 9, 9] ls0 7 2 3 1 rfl

/-- Claim C1: on a scan whose preconditions hold and whose position tests
strictly inside the boundary, every committed range equals the minimum over
all geometries (each obstacle a filled polygon, the boundary a closed
polyline) of the distance from the sensor to the beam-geometry intersection,
floored at 0 and capped at range_max, with range_max kept when no geometry
intersects; and every committed beam endpoint is
position + range · (cos(heading+angle), sin(heading+angle)). -/
theorem C1_scan_ranges_and_endpoints (M : ShapelyModel) (cfg : LaserScanConfig)
    (m : BasicMap) (st0 : List ℚ) (ls : LaserScanOutput) (t cx cy ch : ℚ)
    (hin : M.contains m.boundary_coords (cx, cy) = true)
    (hrm : 0 ≤ ls.range_max)
    (hnn : ∀ p q g d, M.beamHit p q g = some d → 0 ≤ d) :
    ∃ sc' ls', scan M ⟨cfg, some m, st0, some ls⟩ t [cx, cy, ch] = .ok (sc', []) ∧
      sc'.laser_scan? = some ls' ∧
      ls'.ranges.length = ls.angles.length ∧
      ls'.beam_end_points.length = ls.angles.length ∧
      ∀ i, i < ls.angles.length →
        ls'.ranges.getD i 0 =
          specBeamRange ls.range_max
            ((scan_geometries m).filterMap
              (M.beamHit (cx, cy)
                (cx + ls.range_max * M.cosF (ch + ls.angles.getD i 0),
                 cy + ls.range_max * M.sinF (ch + ls.angles.getD i 0)))) ∧
        ls'.beam_end_points.getD i (0, 0) =
          (cx + ls'.ranges.getD i 0 * M.cosF (ch + ls.angles.getD i 0),
           cy + ls'.ranges.getD i 0 * M.sinF (ch + ls.angles.getD i 0)) := by
  rw [scan_inside M cfg m st0 ls t cx cy ch hin]
  refine ⟨_, _, rfl, rfl, ?_, ?_, ?_⟩
  · rw [scan_committed_ranges, List.length_map, scan_results_length]
    rfl
  · rw [scan_committed_beams, List.length_map, scan_results_length]
    rfl
  · intro i hi
    have hi1 : i < (init_beams { ls with timestamp := t } (cx, cy) ch
        M.cosF M.sinF).angles.length := hi
    have hlen1 : i < (scan_results M m
        (init_beams { ls with timestamp := t } (cx, cy) ch M.cosF M.sinF)
        cx cy ch).length := by
      rw [scan_results_length]; exact hi1
    rw [scan_committed_ranges, scan_committed_beams,
      getD_map Prod.fst _ _ hlen1 0 (0, ((0 : ℚ), (0 : ℚ))),
      getD_map Prod.snd _ _ hlen1 (0, 0) (0, ((0 : ℚ), (0 : ℚ))),
      scan_results_getD M m _ cx cy ch i (0, ((0 : ℚ), (0 : ℚ))) hi1]
    exact ⟨beam_closest_distance_eq_spec M (scan_geometries m) (cx, cy) _ _ hrm hnn, rfl⟩

/-- Witness for C1 on a concrete in-boundary scan under the model M0. -/
theorem C1_scan_ranges_and_endpoints_witness :
    M0.contains m0.boundary_coords (1, 1) = true ∧
    (0 : ℚ) ≤ ls0.range_max ∧
    (∃ sc' ls', scan M0 ⟨cfgValid, some m0, [1, 1, 0], some ls0⟩ 0 [1, 1, 0] =
        .ok (sc', []) ∧
      sc'.laser_scan? = some ls' ∧
      ls'.ranges.length = ls0.angles.length ∧
      ls'.beam_end_points.length = ls0.angles.length ∧
      ∀ i, i < ls0.angles.length →
        ls'.ranges.getD i 0 =
          specBeamRange ls0.range_max
            ((scan_geometries m0).filterMap
              (M0.beamHit (1, 1)
                (1 + ls0.range_max * M0.cosF (0 + ls0.angles.getD i 0),
                 1 + ls0.range_max * M0.sinF (0 + ls0.angles.getD i 0)))) ∧
        ls'.beam_end_points.getD i (0, 0) =
          (1 + ls'.ranges.getD i 0 * M0.cosF (0 + ls0.angles.getD i 0),
           1 + ls'.ranges.getD i 0 * M0.sinF (0 + ls0.angles.getD i 0))) :=
  ⟨rfl, by decide,
   C1_scan_ranges_and_endpoints M0 cfgValid m0 [1, 1, 0] ls0 0 1 1 0 rfl (by decide)
     (by
       intro p q g d h
       cases g with
       | polygon v =>
           simp only [M0, Option.some.injEq] at h
           subst h
           decide
       | lineString v =>
           simp only [M0, Option.some.injEq] at h
           subst h
           decide)⟩

/-- Claim C9: scan is deterministic and prior state does not leak: a second
scan with the identical timestamp and pose against the unchanged map returns
exactly the same scanner state and warnings (hence identical ranges and beam
endpoints). -/
theorem C9_scan_idempotent (M : ShapelyModel) (sc sc1 : LaserScanner) (t : ℚ)
    (cur : List ℚ) (w1 : List String)
    (h : scan M sc t cur = .ok (sc1, w1)) :
    scan M sc1 t cur = .ok (sc1, w1) := by
  obtain ⟨cfg, mo, st0, lo⟩ := sc
  cases mo with
  | none => exact absurd h (by simp [scan])
  | some m =>
  cases lo with
  | none => exact absurd h (by simp [scan])
  | some ls =>
  by_cases hlen : cur.length = 3
  · obtain ⟨cx, cy, ch, rfl⟩ := List.length_eq_three.mp hlen
    cases hc : M.contains m.boundary_coords (cx, cy) with
    | false =>
        rw [scan_outside M cfg m st0 ls t cx cy ch hc] at h
        simp only [Except.ok.injEq, Prod.mk.injEq] at h
        obtain ⟨h1, h2⟩ := h
        subst h1
        subst h2
        rw [scan_outside M cfg m [cx, cy, ch]
          (init_beams { ls with timestamp := t } (cx, cy) ch M.cosF M.sinF) t cx cy ch hc]
        rw [init_beams_stable]
    | true =>
        rw [scan_inside M cfg m st0 ls t cx cy ch hc] at h
        simp only [Except.ok.injEq, Prod.mk.injEq] at h
        obtain ⟨h1, h2⟩ := h
        subst h1
        subst h2
        rw [scan_inside M cfg m [cx, cy, ch] (scan_committed M m ls t cx cy ch)
          t cx cy ch hc]
        rw [scan_committed_stable]
  · exact absurd h (by simp [scan, hlen])

/-- Witness for C9: rescanning the concrete scanned state is a fixed point. -/
theorem C9_scan_idempotent_witness :
    scan M0 scanned0sc 0 [1, 1, 0] = .ok (scanned0sc, []) :=
  C9_scan_idempotent M0 sc0 scanned0sc 0 [1, 1, 0] []
    (scan_inside M0 cfgValid m0 [1, 1, 0] ls0 0 1 1 0 rfl)

/-- Counterexample to C4: the configuration angle_min = 0, angle_max = 3,
angle_increment = 2 is accepted, np.arange(0, 3 + 2/2, 2) = [0, 2] gives 2
beam angles, but the claimed count ⌊(angle_max−angle_min)/angle_increment
+ ½⌋ + 1 is 3: when the span is an exact half-integer number of increments,
np.arange's exclusive stop drops the last step the claimed formula counts. -/
theorem C4_counterexample :
    (cfgHalfStep.angle_min ≤ cfgHalfStep.angle_max ∧
      0 < cfgHalfStep.angle_increment ∧
      cfgHalfStep.angle_increment ≤ cfgHalfStep.angle_max - cfgHalfStep.angle_min) ∧
    (mkLaserScanOutput cfgHalfStep).toOption.map (fun ls => ls.angles.length) =
      some 2 ∧
    (⌊(cfgHalfStep.angle_max - cfgHalfStep.angle_min) / cfgHalfStep.angle_increment
        + 1 / 2⌋ + 1 : ℤ) = 3 := by
  refine ⟨by norm_num [cfgHalfStep], ?_, by norm_num [cfgHalfStep]⟩
  unfold mkLaserScanOutput
  rw [if_neg (by norm_num [cfgHalfStep]), if_neg (by norm_num [cfgHalfStep])]
  have hlen2 : (arange cfgHalfStep.angle_min
      (cfgHalfStep.angle_max + cfgHalfStep.angle_increment / 2)
      cfgHalfStep.angle_increment).length = 2 := by
    rw [arange_length,
      show (cfgHalfStep.angle_max + cfgHalfStep.angle_increment / 2 -
          cfgHalfStep.angle_min) / cfgHalfStep.angle_increment = (2 : ℚ) by
        norm_num [cfgHalfStep],
      show ⌈(2 : ℚ)⌉ = (2 : ℤ) by norm_num]
    rfl
  simp [Except.toOption, hlen2]

/-- Claim C4, amended: for every accepted configuration the derived angle
sequence has length ≥ 1, starts at angle_min, steps by exactly
angle_increment, its last element equals angle_max within one
increment-step tolerance, and its length is
⌈(angle_max−angle_min)/angle_increment + ½⌉ — equal to the claimed
⌊·+½⌋+1 except when (angle_max−angle_min)/angle_increment is an exact
half-integer, where the terminal step is excluded. -/
theorem C4_angles_properties (cfg : LaserScanConfig) (ls : LaserScanOutput)
    (h : mkLaserScanOutput cfg = .ok ls) :
    1 ≤ ls.angles.length ∧
    ls.angles.length =
      (⌈(cfg.angle_max - cfg.angle_min) / cfg.angle_increment + 1 / 2⌉).toNat ∧
    ls.angles.getD 0 0 = cfg.angle_min ∧
    (∀ i, i + 1 < ls.angles.length →
      ls.angles.getD (i + 1) 0 = ls.angles.getD i 0 + cfg.angle_increment) ∧
    |cfg.angle_max - ls.angles.getD (ls.angles.length - 1) 0| ≤
      cfg.angle_increment := by
  unfold mkLaserScanOutput at h
  split_ifs at h with h1 h2
  simp only [Except.ok.injEq] at h
  have hangles : ls.angles =
      arange cfg.angle_min (cfg.angle_max + cfg.angle_increment / 2)
        cfg.angle_increment := by
    rw [← h]
  rw [not_or, not_le, not_lt] at h2
  obtain ⟨hpos, hle⟩ := h2
  rw [not_lt] at h1
  have hinc0 : cfg.angle_increment ≠ 0 := ne_of_gt hpos
  have harg : (cfg.angle_max + cfg.angle_increment / 2 - cfg.angle_min) /
      cfg.angle_increment =
      (cfg.angle_max - cfg.angle_min) / cfg.angle_increment + 1 / 2 := by
    field_simp
    ring
  have hlenA : ls.angles.length =
      (⌈(cfg.angle_max - cfg.angle_min) / cfg.angle_increment + 1 / 2⌉).toNat := by
    rw [hangles, arange_length, harg]
  have hL1 : 1 ≤ (cfg.angle_max - cfg.angle_min) / cfg.angle_increment :=
    (one_le_div hpos).mpr hle
  have hceil_lb : (2 : ℤ) ≤
      ⌈(cfg.angle_max - cfg.angle_min) / cfg.angle_increment + 1 / 2⌉ := by
    have hup := Int.le_ceil
      ((cfg.angle_max - cfg.angle_min) / cfg.angle_increment + 1 / 2)
    have h32 : (3 : ℚ) / 2 ≤
        (⌈(cfg.angle_max - cfg.angle_min) / cfg.angle_increment + 1 / 2⌉ : ℚ) := by
      linarith
    have hgt1 : (1 : ℤ) <
        ⌈(cfg.angle_max - cfg.angle_min) / cfg.angle_increment + 1 / 2⌉ := by
      exact_mod_cast lt_of_lt_of_le (by norm_num : (1 : ℚ) < 3 / 2) h32
    omega
  have hlen1 : 1 ≤ ls.angles.length := by
    rw [hlenA]
    omega
  refine ⟨hlen1, hlenA, ?_, ?_, ?_⟩
  · rw [hangles, arange_getD _ _ _ 0 0 (by rw [← hangles]; omega)]
    simp
  · intro i hi
    rw [hangles, arange_getD _ _ _ (i + 1) 0 (by rw [← hangles]; omega),
      arange_getD _ _ _ i 0 (by rw [← hangles]; omega)]
    push_cast
    ring
  · have hgetfull : ls.angles.getD (ls.angles.length - 1) 0 =
        cfg.angle_min + ((ls.angles.length - 1 : ℕ) : ℚ) * cfg.angle_increment := by
      rw [hangles]
      exact arange_getD _ _ _ _ 0 (by rw [← hangles]; omega)
    rw [hgetfull]
    have hcast : ((ls.angles.length - 1 : ℕ) : ℚ) =
        (⌈(cfg.angle_max - cfg.angle_min) / cfg.angle_increment + 1 / 2⌉ : ℚ) - 1 := by
      have h1z : ((ls.angles.length - 1 : ℕ) : ℤ) =
          ⌈(cfg.angle_max - cfg.angle_min) / cfg.angle_increment + 1 / 2⌉ - 1 := by
        have hz : (ls.angles.length : ℤ) =
            ⌈(cfg.angle_max - cfg.angle_min) / cfg.angle_increment + 1 / 2⌉ := by
          rw [hlenA]
          omega
        omega
      exact_mod_cast h1z
    rw [hcast]
    have hLmul : (cfg.angle_max - cfg.angle_min) / cfg.angle_increment *
        cfg.angle_increment = cfg.angle_max - cfg.angle_min :=
      div_mul_cancel₀ _ hinc0
    have hup := Int.le_ceil
      ((cfg.angle_max - cfg.angle_min) / cfg.angle_increment + 1 / 2)
    have hdown := Int.ceil_lt_add_one
      ((cfg.angle_max - cfg.angle_min) / cfg.angle_increment + 1 / 2)
    have hrew : cfg.angle_max - (cfg.angle_min +
        ((⌈(cfg.angle_max - cfg.angle_min) / cfg.angle_increment + 1 / 2⌉ : ℚ) - 1) *
          cfg.angle_increment) =
        ((cfg.angle_max - cfg.angle_min) / cfg.angle_increment + 1 -
          (⌈(cfg.angle_max - cfg.angle_min) / cfg.angle_increment + 1 / 2⌉ : ℚ)) *
          cfg.angle_increment := by
      linear_combination -hLmul
    rw [hrew, abs_mul, abs_of_pos hpos]
    have habs : |(cfg.angle_max - cfg.angle_min) / cfg.angle_increment + 1 -
        (⌈(cfg.angle_max - cfg.angle_min) / cfg.angle_increment + 1 / 2⌉ : ℚ)| ≤
        1 / 2 := by
      rw [abs_le]
      constructor
      · linarith
      · linarith
    calc |(cfg.angle_max - cfg.angle_min) / cfg.angle_increment + 1 -
          (⌈(cfg.angle_max - cfg.angle_min) / cfg.angle_increment + 1 / 2⌉ : ℚ)| *
          cfg.angle_increment
        ≤ 1 / 2 * cfg.angle_increment :=
          mul_le_mul_of_nonneg_right habs hpos.le
      _ ≤ cfg.angle_increment := by linarith

/-- Witness for the amended C4 at a concrete accepted configuration. -/
theorem C4_angles_properties_witness :
    mkLaserScanOutput cfgHalfStep = .ok lsHalfStep ∧
    (1 ≤ lsHalfStep.angles.length ∧
      lsHalfStep.angles.length =
        (⌈(cfgHalfStep.angle_max - cfgHalfStep.angle_min) /
            cfgHalfStep.angle_increment + 1 / 2⌉).toNat ∧
      lsHalfStep.angles.getD 0 0 = cfgHalfStep.angle_min ∧
      (∀ i, i + 1 < lsHalfStep.angles.length →
        lsHalfStep.angles.getD (i + 1) 0 =
          lsHalfStep.angles.getD i 0 + cfgHalfStep.angle_increment) ∧
      |cfgHalfStep.angle_max -
          lsHalfStep.angles.getD (lsHalfStep.angles.length - 1) 0| ≤
        cfgHalfStep.angle_increment) := by
  have hok : mkLaserScanOutput cfgHalfStep = .ok lsHalfStep := by
    unfold lsHalfStep
    unfold mkLaserScanOutput
    rw [if_neg (by norm_num [cfgHalfStep]), if_neg (by norm_num [cfgHalfStep])]
    rfl
  exact ⟨hok, C4_angles_properties cfgHalfStep lsHalfStep hok⟩

/-- Counterexample to C7: a boundary whose SECOND vertex is 3-dimensional is
accepted and stored — the code checks only the first vertex — whereas the
claim says registration fails whenever any vertex is not 2-dimensional. -/
theorem C7_counterexample :
    register_boundary gm0 [[0, 0], [1, 1, 1]] =
      .ok { gm0 with boundary_coords := [[0, 0], [1, 1, 1]] } ∧
    ([(1 : ℚ), 1, 1] : Vertex).length ≠ 2 := by
  exact ⟨rfl, by decide⟩

/-- Claim C7, amended: register_boundary fails when the vertex list is empty
(an uncaught index error rather than a validation error) or when its FIRST
vertex is not 2-dimensional, and otherwise replaces the boundary (later
vertices are not dimension-checked); register_obstacle fails when the record
lacks a vertex list, when the vertex list is empty (index error), or when
the first vertex is not 2-dimensional, and otherwise stores the obstacle
under its id, a duplicate id overwriting the previous entry (last write
wins). -/
theorem C7_registration_characterization :
    (∀ gm : GeometricMap, ∃ msg, register_boundary gm [] = .error msg) ∧
    (∀ (gm : GeometricMap) (v0 : Vertex) (vs : List Vertex), v0.length ≠ 2 →
      ∃ msg, register_boundary gm (v0 :: vs) = .error msg) ∧
    (∀ (gm : GeometricMap) (v0 : Vertex) (vs : List Vertex), v0.length = 2 →
      register_boundary gm (v0 :: vs) = .ok { gm with boundary_coords := v0 :: vs }) ∧
    (∀ (gm : GeometricMap) (ob : ObstacleInfo), ob.vertices? = none →
      ∃ msg, register_obstacle gm ob = .error msg) ∧
    (∀ (gm : GeometricMap) (ob : ObstacleInfo), ob.vertices? = some [] →
      ∃ msg, register_obstacle gm ob = .error msg) ∧
    (∀ (gm : GeometricMap) (ob : ObstacleInfo) (v0 : Vertex) (vs : List Vertex),
      ob.vertices? = some (v0 :: vs) → v0.length ≠ 2 →
      ∃ msg, register_obstacle gm ob = .error msg) ∧
    (∀ (gm : GeometricMap) (ob : ObstacleInfo) (v0 : Vertex) (vs : List Vertex),
      ob.vertices? = some (v0 :: vs) → v0.length = 2 →
      register_obstacle gm ob =
        .ok { gm with
              obstacle_info_dict := dictInsert gm.obstacle_info_dict ob.id_ ob }) ∧
    (∀ (d : List (ℤ × ObstacleInfo)) (k : ℤ) (v : ObstacleInfo),
      (dictInsert d k v).lookup k = some v) := by
  refine ⟨fun gm => ⟨_, rfl⟩, ?_, ?_, ?_, ?_, ?_, ?_, ?_⟩
  · intro gm v0 vs h
    refine ⟨"All coordinates must be 2-dimension.", ?_⟩
    simp [register_boundary, h]
  · intro gm v0 vs h
    simp [register_boundary, h]
  · intro gm ob h
    unfold register_obstacle
    rw [h]
    exact ⟨_, rfl⟩
  · intro gm ob h
    unfold register_obstacle
    rw [h]
    exact ⟨_, rfl⟩
  · intro gm ob v0 vs h hv
    unfold register_obstacle
    rw [h]
    simp only [if_pos hv]
    exact ⟨_, rfl⟩
  · intro gm ob v0 vs h hv
    unfold register_obstacle
    rw [h]
    simp only [if_neg (not_not_intro hv)]
  · intro d k v
    induction d with
    | nil => simp [dictInsert, List.lookup]
    | cons p rest ih =>
        obtain ⟨k0, v0⟩ := p
        unfold dictInsert
        by_cases hk : k0 = k
        · rw [if_pos hk]
          simp [List.lookup]
        · rw [if_neg hk]
          simp only [List.lookup]
          rw [show (k == k0) = false from
            beq_eq_false_iff_ne.mpr fun he => hk he.symm]
          exact ih

/-- Witness for the amended C7 at concrete inputs for every case. -/
theorem C7_registration_characterization_witness :
    (∃ msg, register_boundary gm0 [] = .error msg) ∧
    (∃ msg, register_boundary gm0 [[1, 1, 1]] = .error msg) ∧
    register_boundary gm0 [[0, 0]] = .ok { gm0 with boundary_coords := [[0, 0]] } ∧
    (∃ msg, register_obstacle gm0 { id_ := 1, name := "a", vertices? := none } =
      .error msg) ∧
    (∃ msg, register_obstacle gm0 { id_ := 1, name := "a", vertices? := some [] } =
      .error msg) ∧
    (∃ msg, register_obstacle gm0 { id_ := 1, name := "a", vertices? := some [[1]] } =
      .error msg) ∧
    register_obstacle gm0 ob0 =
      .ok { gm0 with obstacle_info_dict := dictInsert gm0.obstacle_info_dict 1 ob0 } ∧
    (dictInsert (dictInsert [] 1 ob0) 1 ob1).lookup 1 = some ob1 :=
  ⟨C7_registration_characterization.1 gm0,
   C7_registration_characterization.2.1 gm0 [1, 1, 1] [] (by decide),
   C7_registration_characterization.2.2.1 gm0 [0, 0] [] (by decide),
   C7_registration_characterization.2.2.2.1 gm0
     { id_ := 1, name := "a", vertices? := none } rfl,
   C7_registration_characterization.2.2.2.2.1 gm0
     { id_ := 1, name := "a", vertices? := some [] } rfl,
   C7_registration_characterization.2.2.2.2.2.1 gm0
     { id_ := 1, name := "a", vertices? := some [[1]] } [1] [] rfl (by decide),
   C7_registration_characterization.2.2.2.2.2.2.1 gm0 ob0 [5, 5] [] rfl (by decide),
   C7_registration_characterization.2.2.2.2.2.2.2 (dictInsert [] 1 ob0) 1 ob1⟩

end Pylaser
